import Mathlib

/-!
Verification development for the echo-chain encrypted messaging client.

The client encrypts messages with NaCl box, anchors a SHA-256 content hash
of each message on a Substrate chain, delivers payloads over PubNub and a
libp2p gossip overlay, and reconciles the redundant arrivals into one
de-duplicated per-conversation timeline.  The definitions below are shallow
embeddings of the relevant TypeScript functions; each definition's doc
comment names the source location it embeds.  Machine numbers are embedded
as `Nat`/`Int` (JavaScript numbers in this code base are timestamps, block
heights and byte values, all far below 2^53, so no overflow modelling is
needed); fallible operations return `Option`.
-/

/-- Delivery/commit lifecycle of a stored message.  `src/src/lib/types.ts`
declares `"sending" | "sent" | "verified" | "failed"`; the receive paths in
the repository's other revisions additionally use `"received"` and
`"delivered"`, so the embedding carries all six values. -/
inductive MsgStatus where
  | sending
  | sent
  | verified
  | failed
  | received
  | delivered
deriving DecidableEq

/-- Direction of a stored message (`"sent" | "received"` in
`src/src/lib/types.ts`). -/
inductive MsgDirection where
  | sent
  | received
deriving DecidableEq

/-- The `{ciphertext, nonce}` envelope, both base64-encoded byte strings
(`EncryptedMessage` in `src/src/lib/encryption.ts`). -/
structure EncryptedMessage where
  ciphertext : String
  nonce : String
deriving DecidableEq

/-- `StoredMessage` from `src/src/lib/types.ts`.  `canVerify` is written by
`ChatInterface.tsx` and the receive paths, so it is part of the effective
record even though the `types.ts` revision shown omits it. -/
structure StoredMessage where
  id : String
  conversationId : String
  sender : String
  recipient : String
  encryptedData : EncryptedMessage
  hash : String
  timestamp : Nat
  status : MsgStatus
  blockNumber : Option Nat
  decryptedContent : Option String
  direction : MsgDirection
  verified : Bool
  expired : Bool
  verifiedAt : Option Nat
  canVerify : Bool
deriving DecidableEq

/-- `ChatMessage` from `src/src/lib/types.ts`, the per-conversation display
record produced by `conversationMessages` in `ChatInterface.tsx`. -/
structure ChatMessage where
  id : String
  content : String
  sender : String
  recipient : String
  timestamp : Nat
  isMine : Bool
  status : MsgStatus
  encrypted : Bool
  hash : Option String
  blockNumber : Option Nat
  verified : Bool
  expired : Bool
  verifiedAt : Option Nat
  conversationId : Option String
  canVerify : Bool
deriving DecidableEq

/-- `MessageVerificationResult` from `src/src/lib/types.ts`.
`blocksRemaining` and `daysRemaining` are `Int` because
`expiryBlock - currentBlockHeight` can be negative in JavaScript. -/
structure MessageVerificationResult where
  verified : Bool
  expired : Bool
  blockchainHash : Option String
  computedHash : Option String
  blockNumber : Option Nat
  blocksRemaining : Option Int
  daysRemaining : Option Int
  error : Option String
deriving DecidableEq

/-- The on-chain record behind `api.query.messaging.messageHashes(id)`:
the tuple `(Hash, BlockNumber, Sender, Recipient)` parsed at
`src/src/contexts/BlockchainContext.tsx:1375`.  The block number is kept as
a `Nat`; the source receives it as a `toHuman` string with thousands
separators and immediately parses it back with
`parseInt(blockNumStr.replace(/,/g, ""), 10)`. -/
structure ChainRecord where
  hash : String
  blockNumber : Nat
  sender : String
  recipient : String
deriving DecidableEq

/-- Wire payload delivered over PubNub (`PubNubMessage` in
`src/src/utils/pubnub.ts`): ciphertext and nonce travel as byte arrays. -/
structure PubNubMessage where
  messageId : String
  conversationId : String
  sender : String
  recipient : String
  encryptedData : List Nat
  nonce : List Nat
  messageHash : String
  blockNumber : Option Nat
  timestamp : Nat
deriving DecidableEq

/-- Wire payload delivered over the libp2p gossip overlay (`P2PMessage` in
the libp2p adapter revision, `src/unnamed/part_005`): ciphertext and nonce
travel as the base64 envelope itself. -/
structure P2PMessage where
  messageId : String
  conversationId : String
  sender : String
  recipient : String
  encryptedData : EncryptedMessage
  messageHash : String
  blockNumber : Option Nat
  timestamp : Nat
deriving DecidableEq

/-!
## CryptoEnvelope: `src/src/lib/encryption.ts`

`encryptMessage` / `decryptMessage` are thin wrappers around the external
`tweetnacl` and `tweetnacl-util` libraries.  The libraries are not part of
this repository, so they are modelled from their documented contracts as a
bundled structure: `box`/`boxOpen` are NaCl box over byte lists, with the
round-trip law that opening with the complementary key pair recovers the
plaintext; base64 and UTF-8 codecs round-trip.  The wrappers themselves are
translated from the source.
-/

/-- Modelled from the spec: the external `tweetnacl` / `tweetnacl-util`
libraries used by `src/src/lib/encryption.ts` (they are dependencies, not
repository code).  `box m n pk sk` is `nacl.box(m, n, theirPublicKey,
mySecretKey)`; `boxOpen` is `nacl.box.open`; `keyPair pk sk` states that
`(pk, sk)` is a pair produced by `nacl.box.keyPair()`; the codec fields are
`encodeBase64` / `decodeBase64` / `decodeUTF8` / `encodeUTF8`.  The three
propositional fields record the libraries' documented behaviour: box-open
with the matching keys recovers the message, and both codecs round-trip. -/
structure NaclLib where
  box : List Nat → List Nat → List Nat → List Nat → List Nat
  boxOpen : List Nat → List Nat → List Nat → List Nat → Option (List Nat)
  keyPair : List Nat → List Nat → Prop
  encodeBase64 : List Nat → String
  decodeBase64 : String → List Nat
  decodeUTF8 : String → List Nat
  encodeUTF8 : List Nat → String
  boxOpen_box : ∀ m n pkR skR pkS skS, keyPair pkR skR → keyPair pkS skS →
    boxOpen (box m n pkR skS) n pkS skR = some m
  decodeBase64_encodeBase64 : ∀ b, decodeBase64 (encodeBase64 b) = b
  encodeUTF8_decodeUTF8 : ∀ s, encodeUTF8 (decodeUTF8 s) = s

/-- `encryptMessage` from `src/src/lib/encryption.ts:61`.  The source draws
the nonce internally from `nacl.randomBytes(nacl.box.nonceLength)`; the
embedding takes the drawn nonce as the explicit entropy argument.  The
`!encrypted` throw branch cannot fire in the model because the modelled
`box` is total, matching `nacl.box` on well-formed inputs. -/
def encryptMessage (L : NaclLib) (message : String) (nonce : List Nat)
    (recipientPublicKey senderSecretKey : List Nat) : EncryptedMessage :=
  let messageUint8 := L.decodeUTF8 message
  let encrypted := L.box messageUint8 nonce recipientPublicKey senderSecretKey
  { ciphertext := L.encodeBase64 encrypted, nonce := L.encodeBase64 nonce }

/-- `decryptMessage` from `src/src/lib/encryption.ts:89`.  The source throws
on `nacl.box.open` failure; the embedding returns `none` there. -/
def decryptMessage (L : NaclLib) (encryptedMessage : EncryptedMessage)
    (senderPublicKey recipientSecretKey : List Nat) : Option String :=
  let ciphertext := L.decodeBase64 encryptedMessage.ciphertext
  let nonce := L.decodeBase64 encryptedMessage.nonce
  match L.boxOpen ciphertext nonce senderPublicKey recipientSecretKey with
  | none => none
  | some decrypted => some (L.encodeUTF8 decrypted)

/-!
### A concrete `NaclLib` instance

Closed witnesses need a computable library instance.  `toyNacl` is a
minimal scheme satisfying the contract: a key pair is `pk = sk`, the shared
secret of `box` (recipient public + sender secret) therefore equals the one
of `boxOpen` (sender public + recipient secret), and the codecs are simple
injective encodings on byte lists.
-/

/-- Unary run-length encoding of a byte list into characters, the toy
stand-in for base64: each byte `x` becomes `x` copies of `a` and a
terminating `b`. -/
def toyEnc (b : List Nat) : List Char :=
  b.flatMap (fun x => List.replicate x 'a' ++ ['b'])

/-- One decoding step of the unary run-length codec. -/
def toyDecStep (c : Char) (acc : List Nat) : List Nat :=
  if c = 'b' then 0 :: acc
  else match acc with
    | [] => []
    | h :: t => (h + 1) :: t

/-- Inverse of `toyEnc`. -/
def toyDec (cs : List Char) : List Nat :=
  cs.foldr toyDecStep []

theorem toyDec_replicate (x : Nat) (h : Nat) (t : List Nat) :
    List.foldr toyDecStep (h :: t) (List.replicate x 'a') = (x + h) :: t := by
  induction x with
  | zero => simp
  | succ n ih =>
    simp only [List.replicate_succ, List.foldr_cons, ih]
    show toyDecStep 'a' ((n + h) :: t) = (n + 1 + h) :: t
    rw [show toyDecStep 'a' ((n + h) :: t) = (n + h + 1) :: t from rfl]
    rw [show n + h + 1 = n + 1 + h by omega]

theorem toyDec_toyEnc (b : List Nat) : toyDec (toyEnc b) = b := by
  induction b with
  | nil => rfl
  | cons x t ih =>
    simp only [toyEnc, toyDec, List.flatMap_cons, List.foldr_append] at *
    rw [ih]
    show List.foldr toyDecStep (toyDecStep 'b' t) (List.replicate x 'a') = x :: t
    rw [show toyDecStep 'b' t = 0 :: t from rfl, toyDec_replicate]
    simp

/-- The concrete library instance: keys are byte lists with `keyPair pk sk
:= pk = sk`, `box` shifts every byte by the shared sum, the codecs are
`toyEnc`/`toyDec` and code-point lists. -/
def toyNacl : NaclLib where
  box := fun m n pk sk => m.map (fun x => x + (pk.sum + sk.sum + n.sum))
  boxOpen := fun c n pk sk =>
    if c.all (fun x => decide (pk.sum + sk.sum + n.sum ≤ x)) then
      some (c.map (fun x => x - (pk.sum + sk.sum + n.sum)))
    else none
  keyPair := fun pk sk => pk = sk
  encodeBase64 := fun b => String.mk (toyEnc b)
  decodeBase64 := fun s => toyDec s.data
  decodeUTF8 := fun s => s.data.map Char.toNat
  encodeUTF8 := fun b => String.mk (b.map Char.ofNat)
  boxOpen_box := by
    intro m n pkR skR pkS skS hR hS
    subst hR
    subst hS
    have hsum : pkS.sum + pkR.sum + n.sum = pkR.sum + pkS.sum + n.sum := by ring
    simp only [hsum]
    rw [if_pos]
    · congr 1
      have hfun : ((fun x => x - (pkR.sum + pkS.sum + n.sum)) ∘
          fun x => x + (pkR.sum + pkS.sum + n.sum)) = id := by
        funext y
        simp
      rw [List.map_map, hfun, List.map_id]
    · simp
  decodeBase64_encodeBase64 := by
    intro b
    simpa using toyDec_toyEnc b
  encodeUTF8_decodeUTF8 := by
    intro s
    show String.mk ((s.data.map Char.toNat).map Char.ofNat) = s
    rw [List.map_map]
    have : (Char.ofNat ∘ Char.toNat) = id := by
      funext c
      simp [Function.comp, Char.ofNat_toNat]
    rw [this, List.map_id]

/-!
## Content hash: the two `hashMessage` revisions

`src/src/lib/encryption.ts` contains two revisions of `hashMessage`.  The
first (line 114) returns `"0x" + sha256(data)` using the synchronous
js-sha256 library; the second (line 240) digests the TextEncoder bytes with
`crypto.subtle.digest("SHA-256")` and hex-encodes the digest bytes itself,
without any prefix.  Both libraries compute the same standard SHA-256
digest of the UTF-8 bytes; SHA-256 itself is implemented below so that the
embedding stays executable.
-/

/-- Truncation to a 32-bit word. -/
def w32 (n : Nat) : Nat := n % 4294967296

/-- 32-bit right rotation. -/
def rotr32 (n x : Nat) : Nat := w32 ((x >>> n) ||| (x <<< (32 - n)))

/-- SHA-256 `Ch`: bitwise NOT is XOR with the all-ones 32-bit word. -/
def shaCh (x y z : Nat) : Nat := (x &&& y) ^^^ ((x ^^^ 4294967295) &&& z)

/-- SHA-256 `Maj`. -/
def shaMaj (x y z : Nat) : Nat := (x &&& y) ^^^ (x &&& z) ^^^ (y &&& z)

/-- SHA-256 big sigma 0. -/
def bigSigma0 (x : Nat) : Nat := rotr32 2 x ^^^ rotr32 13 x ^^^ rotr32 22 x

/-- SHA-256 big sigma 1. -/
def bigSigma1 (x : Nat) : Nat := rotr32 6 x ^^^ rotr32 11 x ^^^ rotr32 25 x

/-- SHA-256 small sigma 0. -/
def smallSigma0 (x : Nat) : Nat := rotr32 7 x ^^^ rotr32 18 x ^^^ (x >>> 3)

/-- SHA-256 small sigma 1. -/
def smallSigma1 (x : Nat) : Nat := rotr32 17 x ^^^ rotr32 19 x ^^^ (x >>> 10)

/-- The 64 SHA-256 round constants (written in decimal). -/
def shaK : List Nat :=
  [1116352408, 1899447441, 3049323471, 3921009573, 961987163,
   1508970993, 2453635748, 2870763221, 3624381080, 310598401,
   607225278, 1426881987, 1925078388, 2162078206, 2614888103,
   3248222580, 3835390401, 4022224774, 264347078, 604807628,
   770255983, 1249150122, 1555081692, 1996064986, 2554220882,
   2821834349, 2952996808, 3210313671, 3336571891, 3584528711,
   113926993, 338241895, 666307205, 773529912, 1294757372,
   1396182291, 1695183700, 1986661051, 2177026350, 2456956037,
   2730485921, 2820302411, 3259730800, 3345764771, 3516065817,
   3600352804, 4094571909, 275423344, 430227734, 506948616,
   659060556, 883997877, 958139571, 1322822218, 1537002063,
   1747873779, 1955562222, 2024104815, 2227730452, 2361852424,
   2428436474, 2756734187, 3204031479, 3329325298]

/-- The SHA-256 initial hash value (written in decimal). -/
def shaH0 : List Nat :=
  [1779033703, 3144134277, 1013904242, 2773480762,
   1359893119, 2600822924, 528734635, 1541459225]

/-- Split a list into chunks of `n`, driven by an explicit fuel that the
caller sets to the list length. -/
def chunkFuel (n : Nat) : Nat → List α → List (List α)
  | 0, _ => []
  | _, [] => []
  | fuel + 1, l => l.take n :: chunkFuel n fuel (l.drop n)

/-- Split a list into chunks of `n` elements. -/
def chunks (n : Nat) (l : List α) : List (List α) := chunkFuel n l.length l

/-- Big-endian 32-bit word from four bytes. -/
def word4 (bs : List Nat) : Nat := bs.foldl (fun acc b => acc * 256 + b) 0

/-- The four big-endian bytes of a 32-bit word. -/
def wordBytes (w : Nat) : List Nat :=
  [w / 16777216 % 256, w / 65536 % 256, w / 256 % 256, w % 256]

/-- SHA-256 padding: append `0x80`, zero bytes up to 56 mod 64, and the
bit length as eight big-endian bytes. -/
def sha256pad (msg : List Nat) : List Nat :=
  let l := msg.length
  let k := (64 + 56 - ((l + 1) % 64)) % 64
  msg ++ [0x80] ++ List.replicate k 0 ++
    (List.range 8).map (fun i => ((l * 8) >>> (8 * (7 - i))) % 256)

/-- Message-schedule extension; `acc` holds the words produced so far,
newest first. -/
def scheduleExtend (acc : List Nat) : Nat → List Nat
  | 0 => acc
  | n + 1 =>
    scheduleExtend
      (w32 (smallSigma1 (acc.getD 1 0) + acc.getD 6 0 +
        smallSigma0 (acc.getD 14 0) + acc.getD 15 0) :: acc) n

/-- The 64-word message schedule from the 16 block words. -/
def messageSchedule (ws : List Nat) : List Nat :=
  (scheduleExtend ws.reverse 48).reverse

/-- One SHA-256 compression round; the state is the eight working
variables `a..h`. -/
def compressStep (st : List Nat) (kw : Nat × Nat) : List Nat :=
  let a := st.getD 0 0
  let b := st.getD 1 0
  let c := st.getD 2 0
  let d := st.getD 3 0
  let e := st.getD 4 0
  let f := st.getD 5 0
  let g := st.getD 6 0
  let h := st.getD 7 0
  let t1 := w32 (h + bigSigma1 e + shaCh e f g + kw.1 + kw.2)
  let t2 := w32 (bigSigma0 a + shaMaj a b c)
  [w32 (t1 + t2), a, b, c, w32 (d + t1), e, f, g]

/-- Process one 64-byte block into the running hash state. -/
def processBlock (H : List Nat) (block : List Nat) : List Nat :=
  let ws := messageSchedule ((chunks 4 block).map word4)
  let st := (shaK.zip ws).foldl compressStep H
  (H.zip st).map (fun p => w32 (p.1 + p.2))

/-- SHA-256 digest (32 bytes) of a byte list. -/
def sha256bytes (msg : List Nat) : List Nat :=
  ((chunks 64 (sha256pad msg)).foldl processBlock shaH0).flatMap wordBytes

/-- UTF-8 encoding of one character, as in TextEncoder. -/
def utf8EncodeChar (c : Char) : List Nat :=
  let n := c.toNat
  if n < 128 then [n]
  else if n < 2048 then [192 + n / 64, 128 + n % 64]
  else if n < 65536 then [224 + n / 4096, 128 + n / 64 % 64, 128 + n % 64]
  else [240 + n / 262144, 128 + n / 4096 % 64, 128 + n / 64 % 64, 128 + n % 64]

/-- UTF-8 bytes of a string (`TextEncoder.encode`, and equally the string
handling inside js-sha256). -/
def utf8Bytes (s : String) : List Nat := s.data.flatMap utf8EncodeChar

/-- Lowercase hex digit for a nibble. -/
def hexDigit (n : Nat) : Char :=
  if n < 10 then Char.ofNat (48 + n) else Char.ofNat (87 + n)

/-- The two lowercase hex digits of a byte, high nibble first; this is the
`HEX_CHARS` nibble lookup inside the js-sha256 library. -/
def hexBytePair (b : Nat) : List Char := [hexDigit (b / 16), hexDigit (b % 16)]

/-- Modelled from the spec: the external js-sha256 library's `sha256(data)`
— the lowercase hex digest of SHA-256 over the UTF-8 bytes of `data`. -/
def jsSha256Hex (data : String) : String :=
  String.mk ((sha256bytes (utf8Bytes data)).flatMap hexBytePair)

/-- JavaScript `b.toString(16)` for a byte value `b < 256`: one lowercase
hex digit when `b < 16`, otherwise two. -/
def jsNatToHex16 (b : Nat) : String :=
  if b < 16 then String.mk [hexDigit b]
  else String.mk [hexDigit (b / 16), hexDigit (b % 16)]

/-- JavaScript `s.padStart(2, "0")`. -/
def padStart2 (s : String) : String :=
  String.mk (List.replicate (2 - s.length) '0') ++ s

namespace JsSha256Rev

/-- `hashMessage` from `src/src/lib/encryption.ts:114` (first revision):
`return "0x" + sha256(data)` with the synchronous js-sha256 library. -/
def hashMessage (data : String) : String := "0x" ++ jsSha256Hex data

end JsSha256Rev

namespace SubtleRev

/-- `hashMessage` from `src/src/lib/encryption.ts:240` (second revision):
`crypto.subtle.digest("SHA-256", TextEncoder bytes)`, then
`hashArray.map(b => b.toString(16).padStart(2, "0")).join("")`.  The
`await` is dropped: the embedding returns the resolved value. -/
def hashMessage (data : String) : String :=
  String.join ((sha256bytes (utf8Bytes data)).map
    (fun b => padStart2 (jsNatToHex16 b)))

end SubtleRev

theorem wordBytes_lt (w : Nat) : ∀ b ∈ wordBytes w, b < 256 := by
  intro b hb
  simp only [wordBytes, List.mem_cons, List.not_mem_nil, or_false] at hb
  rcases hb with h | h | h | h <;> subst h <;> exact Nat.mod_lt _ (by norm_num)

theorem sha256bytes_lt (msg : List Nat) : ∀ b ∈ sha256bytes msg, b < 256 := by
  intro b hb
  simp only [sha256bytes, List.mem_flatMap] at hb
  obtain ⟨w, _, hw⟩ := hb
  exact wordBytes_lt w b hw

theorem padStart2_jsNatToHex16 (b : Nat) (_hb : b < 256) :
    padStart2 (jsNatToHex16 b) = String.mk (hexBytePair b) := by
  by_cases h16 : b < 16
  · rw [jsNatToHex16, if_pos h16]
    rw [show padStart2 (String.mk [hexDigit b]) = String.mk ['0', hexDigit b] from rfl]
    rw [hexBytePair, Nat.div_eq_of_lt h16, Nat.mod_eq_of_lt h16]
    rfl
  · rw [jsNatToHex16, if_neg h16]
    rw [show padStart2 (String.mk [hexDigit (b / 16), hexDigit (b % 16)])
        = String.mk [hexDigit (b / 16), hexDigit (b % 16)] from rfl]
    rfl

theorem foldl_append_mk (g : Nat → List Char) (l : List Nat) :
    ∀ acc : List Char,
      List.foldl (fun r s => r ++ s) (String.mk acc)
        (l.map (fun b => String.mk (g b))) = String.mk (acc ++ l.flatMap g) := by
  induction l with
  | nil => intro acc; simp
  | cons x t ih =>
    intro acc
    simp only [List.map_cons, List.foldl_cons, List.flatMap_cons]
    rw [show String.mk acc ++ String.mk (g x) = String.mk (acc ++ g x) from rfl, ih]
    simp

theorem join_map_mk (g : Nat → List Char) (l : List Nat) :
    String.join (l.map (fun b => String.mk (g b))) = String.mk (l.flatMap g) := by
  have := foldl_append_mk g l []
  simpa [String.join] using this

/-- The two `hashMessage` revisions agree except for the `0x` prefix that
only the js-sha256 revision adds. -/
theorem hashMessage_agree (s : String) :
    JsSha256Rev.hashMessage s = "0x" ++ SubtleRev.hashMessage s := by
  rw [JsSha256Rev.hashMessage, SubtleRev.hashMessage, jsSha256Hex]
  congr 1
  rw [List.map_congr_left (fun b hb =>
    padStart2_jsNatToHex16 b (sha256bytes_lt _ b hb))]
  rw [join_map_mk]

/-!
## VerificationEngine: `verifyMessageOnChain`
(`src/src/contexts/BlockchainContext.tsx:1357`)

The embedding covers the connected, query-succeeded path: the `!api`,
`storedData.isEmpty` and exception branches of the source return early
error results; the record, when present, is the parsed tuple.  The expiry
window and blocks-per-day divisor are parameters because
`src/lib/constants.ts` is not part of the snapshot.
-/

/-- Modelled from the spec: `MESSAGE_HASH_EXPIRY_BLOCKS` is imported from
`src/lib/constants.ts`, which is missing from the snapshot; spec section 8
fixes the window at 1000 blocks. -/
def MESSAGE_HASH_EXPIRY_BLOCKS : Nat := 1000

/-- Modelled from the spec: `BLOCKS_PER_DAY` is imported from
`src/lib/constants.ts`, which is missing from the snapshot; the spec only
says it is a fixed blocks-per-day constant from the ledger block time, so
14400 (6-second blocks) is used.  No claim depends on its value. -/
def BLOCKS_PER_DAY : Nat := 14400

/-- JavaScript `String.prototype.toLowerCase`, embedded as a per-character
map (`Char.toLower` agrees with it on the ASCII hex strings at issue). -/
def jsToLowerCase (s : String) : String :=
  String.mk (s.data.map Char.toLower)

/-- `verifyMessageOnChain` from
`src/src/contexts/BlockchainContext.tsx:1357`.  `expiryWindow` embeds
`MESSAGE_HASH_EXPIRY_BLOCKS` and `blocksPerDay` embeds `BLOCKS_PER_DAY`;
`storedData` is the queried chain record (`none` embeds the
empty/not-found reply); `currentBlock` is `blockchainState.blockNumber`.
`Math.floor` of the JavaScript division is `Int.fdiv`. -/
def verifyMessageOnChain (expiryWindow blocksPerDay : Nat)
    (storedData : Option ChainRecord) (currentBlock : Nat)
    (localHash : String) : MessageVerificationResult :=
  match storedData with
  | none =>
    { verified := false, expired := false, blockchainHash := none,
      computedHash := none, blockNumber := none, blocksRemaining := none,
      daysRemaining := none, error := some "Message not found on blockchain" }
  | some data =>
    let blockNumber := data.blockNumber
    let expiryBlock : Int := (blockNumber : Int) + expiryWindow
    let blocksRemaining : Int := expiryBlock - currentBlock
    let daysRemaining : Int := Int.fdiv blocksRemaining blocksPerDay
    if blocksRemaining ≤ 0 then
      { verified := false, expired := true, blockchainHash := some data.hash,
        computedHash := some localHash, blockNumber := some blockNumber,
        blocksRemaining := some 0, daysRemaining := some 0, error := none }
    else
      let verified := (jsToLowerCase data.hash == jsToLowerCase localHash) ||
        (data.hash == localHash) ||
        (data.hash == "0x" ++ localHash) ||
        ("0x" ++ data.hash == localHash)
      { verified := verified, expired := false,
        blockchainHash := some data.hash, computedHash := some localHash,
        blockNumber := some blockNumber,
        blocksRemaining := some blocksRemaining,
        daysRemaining := some daysRemaining, error := none }

/-!
## MessageStore operations
(`src/src/contexts/BlockchainContext.tsx:1329` and `:1333`)
-/

/-- `addStoredMessage` from `src/src/contexts/BlockchainContext.tsx:1329`:
`setMessages(prev => [...prev, message])`. -/
def addStoredMessage (messages : List StoredMessage)
    (message : StoredMessage) : List StoredMessage :=
  messages ++ [message]

/-- `updateMessageStatus` from
`src/src/contexts/BlockchainContext.tsx:1333`.  The `Partial<StoredMessage>`
spread `...(updates || {})` is embedded as an optional field patch applied
before the explicit `id`/`status`/`blockNumber` keys, which win as in the
source object literal; `newId ?? m.id` and `blockNumber ?? m.blockNumber`
read the original entry. -/
def updateMessageStatus (messages : List StoredMessage) (id : String)
    (status : MsgStatus) (blockNumber : Option Nat) (newId : Option String)
    (updates : Option (StoredMessage → StoredMessage)) : List StoredMessage :=
  messages.map (fun m =>
    if m.id = id then
      let m1 := (match updates with
        | none => m
        | some u => u m)
      { m1 with
        id := newId.getD m.id,
        status := status,
        blockNumber := blockNumber.or m.blockNumber }
    else m)

/-!
## ChatInterface: conversation listing and send flow
(`src/src/components/ChatInterface.tsx`)
-/

/-- Lexicographic code-unit comparison of character lists: the order
JavaScript's default `Array.prototype.sort` applies to strings. -/
def lexLe : List Char → List Char → Bool
  | [], _ => true
  | _ :: _, [] => false
  | x :: xs, y :: ys =>
    if x.toNat < y.toNat then true
    else if y.toNat < x.toNat then false
    else lexLe xs ys

/-- `createConversationId` from `src/src/components/ChatInterface.tsx:30`:
`[addr1, addr2].sort().join("_")`, with the default sort's string
comparison embedded as `lexLe` over the code units. -/
def createConversationId (addr1 addr2 : String) : String :=
  if lexLe addr1.data addr2.data then addr1 ++ "_" ++ addr2
  else addr2 ++ "_" ++ addr1

/-- The `MessageFilter` union type of `ChatInterface.tsx:27`. -/
inductive MessageFilter where
  | all
  | verified
  | unverified
  | expired
deriving DecidableEq

/-- The `switch (filter)` block inside the `conversationMessages` filter
(`ChatInterface.tsx:94`). -/
def matchesFilter (filter : MessageFilter) (m : StoredMessage) : Bool :=
  match filter with
  | .verified => m.verified
  | .unverified => !m.verified && !m.expired
  | .expired => m.expired
  | .all => true

/-- `m.conversationId || createConversationId(m.sender, m.recipient)` from
`ChatInterface.tsx:90` (the empty string is the only falsy value here). -/
def msgConversationId (m : StoredMessage) : String :=
  if m.conversationId = "" then createConversationId m.sender m.recipient
  else m.conversationId

/-- The `.map` body of `conversationMessages` (`ChatInterface.tsx:105`):
build the display record, substituting the placeholder for not-yet-decrypted
inbound content, and derive `isMine`/`canVerify`. -/
def toChatMessage (walletAddress : String) (m : StoredMessage) : ChatMessage :=
  let content0 := m.decryptedContent.getD ""
  let content :=
    if content0 = "" ∧ m.sender ≠ walletAddress then "[Encrypted message]"
    else content0
  let isMine := decide (m.sender = walletAddress)
  { id := m.id, content := content, sender := m.sender,
    recipient := m.recipient, timestamp := m.timestamp, isMine := isMine,
    status := m.status, encrypted := true, hash := some m.hash,
    blockNumber := m.blockNumber, verified := m.verified,
    expired := m.expired, verifiedAt := m.verifiedAt,
    conversationId := some m.conversationId,
    canVerify := !isMine && !m.expired && !(m.status == .sending) &&
      !(m.status == .failed) }

/-- Ascending-timestamp order used by the comparator
`(a, b) => a.timestamp - b.timestamp`. -/
def byTimestamp (a b : ChatMessage) : Prop := a.timestamp ≤ b.timestamp

instance : DecidableRel byTimestamp :=
  fun a b => Nat.decLe a.timestamp b.timestamp

instance : IsTotal ChatMessage byTimestamp :=
  ⟨fun a b => Nat.le_total a.timestamp b.timestamp⟩

instance : IsTrans ChatMessage byTimestamp :=
  ⟨fun _ _ _ hab hbc => Nat.le_trans hab hbc⟩

/-- `conversationMessages` from `ChatInterface.tsx:87`: filter the store to
the open conversation and active filter, map to display records, and sort
ascending by timestamp.  `Array.prototype.sort` is required to be a stable
sort, embedded as insertion sort with the comparator's order. -/
def conversationMessages (messages : List StoredMessage)
    (walletAddress contactAddress : String) (filter : MessageFilter) :
    List ChatMessage :=
  let conversationId := createConversationId walletAddress contactAddress
  List.insertionSort byTimestamp
    ((messages.filter (fun m =>
        decide (msgConversationId m = conversationId) &&
        matchesFilter filter m)).map (toChatMessage walletAddress))

/-- The provisional entry stored by `handleSendMessage`
(`ChatInterface.tsx:166`): `tempId` is `temp_` + `Date.now()` at creation
time `t0`. -/
def mkProvisionalMessage (walletAddress contactAddress content : String)
    (encryptedData : EncryptedMessage) (messageHash : String) (t0 : Nat) :
    StoredMessage :=
  { id := "temp_" ++ toString t0,
    conversationId := createConversationId walletAddress contactAddress,
    sender := walletAddress, recipient := contactAddress,
    encryptedData := encryptedData, hash := messageHash, timestamp := t0,
    status := .sending, blockNumber := none,
    decryptedContent := some content, direction := .sent, verified := true,
    expired := false, verifiedAt := none, canVerify := false }

/-- The ledger-rejection path of `handleSendMessage`
(`ChatInterface.tsx:148`, catch block at line 196): the provisional entry is
stored at creation time `t0`, `sendMessageHash` rejects, and the catch block
calls `updateMessageStatus` with the id `temp_` + (`Date.now() - 1`)
recomputed at catch time `t1` — not with the `tempId` bound earlier. -/
def handleSendMessageRejected (messages : List StoredMessage)
    (walletAddress contactAddress content : String)
    (encryptedData : EncryptedMessage) (messageHash : String) (t0 t1 : Nat) :
    List StoredMessage :=
  let stored := addStoredMessage messages
    (mkProvisionalMessage walletAddress contactAddress content encryptedData
      messageHash t0)
  updateMessageStatus stored ("temp_" ++ toString (t1 - 1)) .failed none none
    none

/-!
## Receive paths
(`src/unnamed/part_000:32` — PubNub relay; `src/unnamed/part_002:42` —
libp2p gossip overlay)
-/

/-- Outcome of the sender-key fetch plus decrypt attempt inside a receive
handler: `noKey` embeds a profile without a public key, `failed` embeds a
thrown decrypt (or a rejected profile fetch, caught by the same inner
catch), `ok s` embeds a successful decrypt to `s`. -/
inductive DecryptOutcome where
  | noKey
  | failed
  | ok (plaintext : String)
deriving DecidableEq

/-- The `receivedMessage` record built by the PubNub
`handleIncomingMessage` (`src/unnamed/part_000:44`): the envelope is stored
as `{ciphertext: "", nonce: ""}` — the wire bytes are consumed only by the
decrypt attempt — and `decryptedContent` is the decrypt outcome or its
placeholder. -/
def pubnubReceivedMessage (outcome : DecryptOutcome)
    (messageData : PubNubMessage) : StoredMessage :=
  { id := messageData.messageId,
    conversationId := messageData.conversationId,
    sender := messageData.sender, recipient := messageData.recipient,
    encryptedData := { ciphertext := "", nonce := "" },
    hash := messageData.messageHash, timestamp := messageData.timestamp,
    status := .sent, blockNumber := messageData.blockNumber,
    decryptedContent := some (match outcome with
      | .ok s => s
      | .noKey => "[Sender public key not found]"
      | .failed => "[Decryption failed]"),
    direction := .received, verified := false, expired := false,
    verifiedAt := none, canVerify := true }

/-- `handleIncomingMessage` from the PubNub provider revision
(`src/unnamed/part_000:32`): skip when an entry with the same id exists;
otherwise store the inbound event.  No recipient check appears on this
path. -/
def pubnubHandleIncomingMessage (messages : List StoredMessage)
    (outcome : DecryptOutcome) (messageData : PubNubMessage) :
    List StoredMessage :=
  if messages.any (fun m => m.id == messageData.messageId) then messages
  else addStoredMessage messages (pubnubReceivedMessage outcome messageData)

/-- The stored record built by the libp2p `handleIncomingMessage`
(`src/unnamed/part_002:65`): the wire envelope is kept, and
`decryptedContent` is the decrypt outcome or its placeholder (`[Sender not
registered]` when the sender key is absent on this path). -/
def libp2pReceivedMessage (outcome : DecryptOutcome)
    (p2pMessage : P2PMessage) : StoredMessage :=
  { id := p2pMessage.messageId,
    conversationId := p2pMessage.conversationId,
    sender := p2pMessage.sender, recipient := p2pMessage.recipient,
    encryptedData := p2pMessage.encryptedData,
    hash := p2pMessage.messageHash, timestamp := p2pMessage.timestamp,
    status := .received, blockNumber := p2pMessage.blockNumber,
    decryptedContent := some (match outcome with
      | .ok s => s
      | .noKey => "[Sender not registered]"
      | .failed => "[Decryption failed]"),
    direction := .received, verified := false, expired := false,
    verifiedAt := none, canVerify := true }

/-- `handleIncomingMessage` from the libp2p provider
(`src/unnamed/part_002:42`): ignore when no wallet is connected or the
recipient is not the active identity; skip duplicates by id; otherwise
store the event keeping its envelope, with `status: "received"` and the
decrypt outcome (placeholder `[Sender not registered]` when the sender key
is absent). -/
def libp2pHandleIncomingMessage (currentAddress : Option String)
    (messages : List StoredMessage) (outcome : DecryptOutcome)
    (p2pMessage : P2PMessage) : List StoredMessage :=
  match currentAddress with
  | none => messages
  | some addr =>
    if p2pMessage.recipient ≠ addr then messages
    else if messages.any (fun m => m.id == p2pMessage.messageId) then messages
    else addStoredMessage messages (libp2pReceivedMessage outcome p2pMessage)

/-- Number of stored entries carrying a given message id. -/
def countById (messages : List StoredMessage) (id : String) : Nat :=
  (messages.filter (fun m => m.id == id)).length

/-!
## Persistence and identity switching
(`src/src/contexts/BlockchainContext.tsx:744` load effect, `:771` save
effect, `:818` account-switch effect)
-/

/-- `getUserStorageKey` from the per-user storage utilities
(`src/src/lib/encryption.ts` third segment): `` `${key}_${address}` ``. -/
def getUserStorageKey (key address : String) : String :=
  key ++ "_" ++ address

/-- `USER_STORAGE_KEYS.MESSAGES`. -/
def MESSAGES_KEY : String := "messaging_messages"

/-- The provider state relevant to message persistence: the committed
`walletState.address` and `messages` React state, the
`isAccountSwitchingRef` and `previousAddressRef` refs, and localStorage as
an association list (newest binding first). -/
structure ProviderState where
  address : Option String
  messages : List StoredMessage
  switching : Bool
  prevAddr : Option String
  storage : List (String × List StoredMessage)
deriving DecidableEq

/-- `localStorage.getItem` over the association-list model. -/
def storageGet (storage : List (String × List StoredMessage))
    (key : String) : Option (List StoredMessage) :=
  (storage.find? (fun p => p.1 == key)).map (fun p => p.2)

/-- `localStorage.setItem` over the association-list model. -/
def storageSet (storage : List (String × List StoredMessage))
    (key : String) (val : List StoredMessage) :
    List (String × List StoredMessage) :=
  (key, val) :: storage

/-- One React commit that changes `walletState.address`, as the
`BlockchainProvider` of `src/src/contexts/BlockchainContext.tsx` runs it.
The three address-dependent effects run in declaration order — load
(line 744: clear the switching ref, read the new address's storage into a
queued `setMessages`), save (line 771: persist the *committed* `messages`
under the *new* key unless they are empty while the switching ref is set),
switch (line 818: on a genuine switch set the switching ref, queue
`setMessages([])`, and always update `previousAddressRef`).  The queued
`setMessages` value lands in a follow-up commit in which only the save
effect's dependencies changed, so only it runs again. -/
def commitAddressChange (s : ProviderState) (newAddr : Option String) :
    ProviderState :=
  let loadResult :=
    match newAddr with
    | none => (s.switching, ([] : List StoredMessage))
    | some a =>
      (false, (storageGet s.storage (getUserStorageKey MESSAGES_KEY a)).getD [])
  let switching1 := loadResult.1
  let pendingMessages := loadResult.2
  let storage1 :=
    match newAddr with
    | none => s.storage
    | some a =>
      if s.messages = [] ∧ switching1 then s.storage
      else storageSet s.storage (getUserStorageKey MESSAGES_KEY a) s.messages
  let isSwitch := s.prevAddr.isSome ∧ newAddr.isSome ∧ s.prevAddr ≠ newAddr
  let switching2 := if isSwitch then true else switching1
  let pending2 := if isSwitch then [] else pendingMessages
  let storage2 :=
    if pending2 = s.messages then storage1
    else
      match newAddr with
      | none => storage1
      | some a =>
        if pending2 = [] ∧ switching2 then storage1
        else storageSet storage1 (getUserStorageKey MESSAGES_KEY a) pending2
  { address := newAddr, messages := pending2, switching := switching2,
    prevAddr := newAddr, storage := storage2 }

/-!
## Claims
-/

/-- C1.  Expiry takes precedence over hash comparison in verification: for
every on-chain record with block number B and current block height H, if
B + EXPIRY_WINDOW_BLOCKS - H <= 0 then `verifyMessageOnChain` returns
expired = true, verified = false and blocksRemaining = 0, for every local
hash, so in particular when the local hash equals the record hash. -/
theorem c1_expiry_takes_precedence (expiryWindow blocksPerDay : Nat)
    (r : ChainRecord) (currentBlock : Nat) (localHash : String)
    (h : (r.blockNumber : Int) + expiryWindow - currentBlock ≤ 0) :
    (verifyMessageOnChain expiryWindow blocksPerDay (some r) currentBlock
        localHash).expired = true ∧
    (verifyMessageOnChain expiryWindow blocksPerDay (some r) currentBlock
        localHash).verified = false ∧
    (verifyMessageOnChain expiryWindow blocksPerDay (some r) currentBlock
        localHash).blocksRemaining = some 0 := by
  simp only [verifyMessageOnChain]
  rw [if_pos h]
  exact ⟨rfl, rfl, rfl⟩

/-- C1 witness: the spec's concrete instance B = 100, window 1000,
H = 1101, with the local hash equal to the record hash. -/
theorem c1_expiry_takes_precedence_witness :
    ((100 : Int) + MESSAGE_HASH_EXPIRY_BLOCKS - 1101 ≤ 0) ∧
    ((verifyMessageOnChain MESSAGE_HASH_EXPIRY_BLOCKS BLOCKS_PER_DAY
        (some { hash := "0xabc", blockNumber := 100, sender := "A",
                recipient := "B" }) 1101 "0xabc").expired = true ∧
      (verifyMessageOnChain MESSAGE_HASH_EXPIRY_BLOCKS BLOCKS_PER_DAY
        (some { hash := "0xabc", blockNumber := 100, sender := "A",
                recipient := "B" }) 1101 "0xabc").verified = false ∧
      (verifyMessageOnChain MESSAGE_HASH_EXPIRY_BLOCKS BLOCKS_PER_DAY
        (some { hash := "0xabc", blockNumber := 100, sender := "A",
                recipient := "B" }) 1101 "0xabc").blocksRemaining = some 0) :=
  ⟨by decide,
    c1_expiry_takes_precedence MESSAGE_HASH_EXPIRY_BLOCKS BLOCKS_PER_DAY
      { hash := "0xabc", blockNumber := 100, sender := "A", recipient := "B" }
      1101 "0xabc" (by decide)⟩

/-- C2 counterexample: `"0xABCD"` and `"abcd"` denote the same digest after
lowercasing and stripping the optional `0x` prefix, the record is not
expired, and yet `verifyMessageOnChain` reports verified = false — all four
comparison branches are case-sensitive about the prefix or
prefix-sensitive about the case, never both tolerant at once. -/
theorem c2_counterexample_case_and_prefix :
    jsToLowerCase "0xABCD" = "0x" ++ "abcd" ∧
    (verifyMessageOnChain MESSAGE_HASH_EXPIRY_BLOCKS BLOCKS_PER_DAY
      (some { hash := "0xABCD", blockNumber := 100, sender := "A",
              recipient := "B" }) 200 "abcd").expired = false ∧
    (verifyMessageOnChain MESSAGE_HASH_EXPIRY_BLOCKS BLOCKS_PER_DAY
      (some { hash := "0xABCD", blockNumber := 100, sender := "A",
              recipient := "B" }) 200 "abcd").verified = false := by
  refine ⟨by decide, by decide, by decide⟩

/-- C2 amended.  The verification hash comparison is case-insensitive when
both hashes carry the same `0x`-prefix status (it lowercases both sides),
and prefix-tolerant only for identical case (the `0x`-prefixed comparisons
are exact): whenever the record is not expired and the hashes agree after
lowercasing, or agree exactly after adding `0x` to exactly one side,
verified = true.  A pair differing in both case and prefix (such as
`"0xABCD"` versus `"abcd"`) is not verified. -/
theorem c2_amended_hash_comparison (expiryWindow blocksPerDay : Nat)
    (r : ChainRecord) (currentBlock : Nat) (localHash : String)
    (hlive : 0 < (r.blockNumber : Int) + expiryWindow - currentBlock)
    (hmatch : jsToLowerCase r.hash = jsToLowerCase localHash ∨
      r.hash = "0x" ++ localHash ∨ "0x" ++ r.hash = localHash) :
    (verifyMessageOnChain expiryWindow blocksPerDay (some r) currentBlock
        localHash).verified = true := by
  simp only [verifyMessageOnChain]
  rw [if_neg (by omega)]
  rcases hmatch with h | h | h <;> simp [h]

/-- C2 amended witness: `"ABCD"` versus `"abcd"` (same prefix status,
different case) at a live record. -/
theorem c2_amended_hash_comparison_witness :
    (0 < (100 : Int) + MESSAGE_HASH_EXPIRY_BLOCKS - 200) ∧
    (verifyMessageOnChain MESSAGE_HASH_EXPIRY_BLOCKS BLOCKS_PER_DAY
      (some { hash := "ABCD", blockNumber := 100, sender := "A",
              recipient := "B" }) 200 "abcd").verified = true :=
  ⟨by decide,
    c2_amended_hash_comparison MESSAGE_HASH_EXPIRY_BLOCKS BLOCKS_PER_DAY
      { hash := "ABCD", blockNumber := 100, sender := "A", recipient := "B" }
      200 "abcd" (by decide) (Or.inl (by decide))⟩

/-- C5.  Encryption round-trip: for every plaintext, nonce draw, recipient
key pair and sender key pair of a library satisfying the NaCl contract,
decrypting the envelope produced by `encryptMessage` with `decryptMessage`
returns exactly the plaintext. -/
theorem c5_encrypt_decrypt_roundtrip (L : NaclLib) (p : String)
    (n : List Nat) (pkR skR pkS skS : List Nat)
    (hR : L.keyPair pkR skR) (hS : L.keyPair pkS skS) :
    decryptMessage L (encryptMessage L p n pkR skS) pkS skR = some p := by
  simp only [encryptMessage, decryptMessage, L.decodeBase64_encodeBase64]
  rw [L.boxOpen_box (L.decodeUTF8 p) n pkR skR pkS skS hR hS]
  simp [L.encodeUTF8_decodeUTF8]

/-- C5 witness: the round-trip at the concrete instance `toyNacl`, with
plaintext "hi", nonce [7], recipient pair ([1, 2], [1, 2]) and sender pair
([3], [3]). -/
theorem c5_encrypt_decrypt_roundtrip_witness :
    toyNacl.keyPair [1, 2] [1, 2] ∧ toyNacl.keyPair [3] [3] ∧
    decryptMessage toyNacl
      (encryptMessage toyNacl "hi" [7] [1, 2] [3]) [3] [1, 2] = some "hi" :=
  ⟨rfl, rfl,
    c5_encrypt_decrypt_roundtrip toyNacl "hi" [7] [1, 2] [1, 2] [3] [3]
      rfl rfl⟩

theorem countById_append_single (l : List StoredMessage) (x : StoredMessage)
    (id : String) :
    countById (l ++ [x]) id =
      countById l id + (if x.id == id then 1 else 0) := by
  by_cases h : (x.id == id) = true
  · simp [countById, List.filter_append, h]
  · simp [countById, List.filter_append, h]

theorem countById_eq_zero_iff (l : List StoredMessage) (id : String) :
    countById l id = 0 ↔ l.any (fun m => m.id == id) = false := by
  simp [countById, List.length_eq_zero, List.filter_eq_nil_iff,
    List.any_eq_false]

theorem any_of_countById_one (l : List StoredMessage) (id : String)
    (h : countById l id = 1) : l.any (fun m => m.id == id) = true := by
  cases hv : l.any (fun m => m.id == id)
  · have h0 := (countById_eq_zero_iff l id).mpr hv
    omega
  · rfl

theorem pubnub_skip (messages : List StoredMessage)
    (outcome : DecryptOutcome) (m : PubNubMessage)
    (h : messages.any (fun x => x.id == m.messageId) = true) :
    pubnubHandleIncomingMessage messages outcome m = messages := by
  simp [pubnubHandleIncomingMessage, h]

theorem pubnub_add (messages : List StoredMessage)
    (outcome : DecryptOutcome) (m : PubNubMessage)
    (h : messages.any (fun x => x.id == m.messageId) = false) :
    pubnubHandleIncomingMessage messages outcome m =
      messages ++ [pubnubReceivedMessage outcome m] := by
  simp [pubnubHandleIncomingMessage, h, addStoredMessage]

theorem libp2p_skip_dup (addr : String) (messages : List StoredMessage)
    (outcome : DecryptOutcome) (p : P2PMessage)
    (h : messages.any (fun x => x.id == p.messageId) = true) :
    libp2pHandleIncomingMessage (some addr) messages outcome p = messages := by
  simp [libp2pHandleIncomingMessage, h]

theorem libp2p_add (addr : String) (messages : List StoredMessage)
    (outcome : DecryptOutcome) (p : P2PMessage)
    (hrecip : p.recipient = addr)
    (h : messages.any (fun x => x.id == p.messageId) = false) :
    libp2pHandleIncomingMessage (some addr) messages outcome p =
      messages ++ [libp2pReceivedMessage outcome p] := by
  simp [libp2pHandleIncomingMessage, hrecip, h, addStoredMessage]

theorem countById_pubnub_fresh (s : List StoredMessage)
    (k : DecryptOutcome) (m : PubNubMessage)
    (h0 : countById s m.messageId = 0) :
    countById (pubnubHandleIncomingMessage s k m) m.messageId = 1 := by
  rw [pubnub_add s k m ((countById_eq_zero_iff s m.messageId).mp h0),
    countById_append_single, h0]
  simp [pubnubReceivedMessage]

theorem countById_libp2p_fresh (addr : String) (s : List StoredMessage)
    (k : DecryptOutcome) (p : P2PMessage) (hrecip : p.recipient = addr)
    (h0 : countById s p.messageId = 0) :
    countById (libp2pHandleIncomingMessage (some addr) s k p)
      p.messageId = 1 := by
  rw [libp2p_add addr s k p hrecip
      ((countById_eq_zero_iff s p.messageId).mp h0),
    countById_append_single, h0]
  simp [libp2pReceivedMessage]

/-- C3.  Message-store dedupe is idempotent: starting from a store with no
entry for an inbound event's id, delivering the event twice over the PubNub
path, twice over the libp2p path, or once over each path in either order,
leaves exactly one stored entry for that id — for any decrypt outcomes at
each delivery. -/
theorem c3_dedupe_idempotent (s : List StoredMessage) (addr : String)
    (k1 k2 k3 k4 : DecryptOutcome) (m : PubNubMessage) (p : P2PMessage)
    (hid : p.messageId = m.messageId) (hrecip : p.recipient = addr)
    (h0 : countById s m.messageId = 0) :
    countById (pubnubHandleIncomingMessage
        (pubnubHandleIncomingMessage s k1 m) k2 m) m.messageId = 1 ∧
    countById (libp2pHandleIncomingMessage (some addr)
        (pubnubHandleIncomingMessage s k1 m) k2 p) m.messageId = 1 ∧
    countById (pubnubHandleIncomingMessage
        (libp2pHandleIncomingMessage (some addr) s k3 p) k4 m)
      m.messageId = 1 ∧
    countById (libp2pHandleIncomingMessage (some addr)
        (libp2pHandleIncomingMessage (some addr) s k3 p) k4 p)
      m.messageId = 1 := by
  have hc1 := countById_pubnub_fresh s k1 m h0
  have hany1 := any_of_countById_one _ _ hc1
  have h0p : countById s p.messageId = 0 := by rw [hid]; exact h0
  have hc3 := countById_libp2p_fresh addr s k3 p hrecip h0p
  have hc3m : countById (libp2pHandleIncomingMessage (some addr) s k3 p)
      m.messageId = 1 := by rw [← hid]; exact hc3
  have hany3 := any_of_countById_one _ _ hc3
  have hany3m := any_of_countById_one _ _ hc3m
  refine ⟨?_, ?_, ?_, ?_⟩
  · rw [pubnub_skip _ k2 m hany1]
    exact hc1
  · rw [libp2p_skip_dup addr _ k2 p (by rw [hid]; exact hany1)]
    exact hc1
  · rw [pubnub_skip _ k4 m hany3m]
    exact hc3m
  · rw [libp2p_skip_dup addr _ k4 p hany3]
    exact hc3m

/-- Concrete PubNub inbound event used by the C3 witness. -/
def c3m : PubNubMessage :=
  { messageId := "id1", conversationId := "alice_bob", sender := "bob",
    recipient := "alice", encryptedData := [1], nonce := [2],
    messageHash := "0xh", blockNumber := some 5, timestamp := 10 }

/-- The same logical event as `c3m` as delivered over the gossip overlay. -/
def c3p : P2PMessage :=
  { messageId := "id1", conversationId := "alice_bob", sender := "bob",
    recipient := "alice", encryptedData := { ciphertext := "ct", nonce := "nn" },
    messageHash := "0xh", blockNumber := some 5, timestamp := 10 }

/-- C3 witness: the concrete event delivered twice per transport and once
per transport in either order, starting from the empty store. -/
theorem c3_dedupe_idempotent_witness :
    c3p.messageId = c3m.messageId ∧ c3p.recipient = "alice" ∧
    countById [] c3m.messageId = 0 ∧
    (countById (pubnubHandleIncomingMessage
        (pubnubHandleIncomingMessage [] .noKey c3m) .noKey c3m)
      c3m.messageId = 1 ∧
    countById (libp2pHandleIncomingMessage (some "alice")
        (pubnubHandleIncomingMessage [] .noKey c3m) .noKey c3p)
      c3m.messageId = 1 ∧
    countById (pubnubHandleIncomingMessage
        (libp2pHandleIncomingMessage (some "alice") [] (.ok "hi") c3p)
        (.ok "hi") c3m) c3m.messageId = 1 ∧
    countById (libp2pHandleIncomingMessage (some "alice")
        (libp2pHandleIncomingMessage (some "alice") [] (.ok "hi") c3p)
        (.ok "hi") c3p) c3m.messageId = 1) :=
  ⟨rfl, rfl, rfl,
    c3_dedupe_idempotent [] "alice" .noKey .noKey (.ok "hi") (.ok "hi")
      c3m c3p rfl rfl rfl⟩

/-- One of identity A's five persisted messages in the C4 scenario. -/
def demoMessage (id : String) (i : Nat) : StoredMessage :=
  { id := id, conversationId := "A_B", sender := "A", recipient := "B",
    encryptedData := { ciphertext := "c", nonce := "n" }, hash := "0xh",
    timestamp := i, status := .sent, blockNumber := none,
    decryptedContent := some "x", direction := .sent, verified := true,
    expired := false, verifiedAt := none, canVerify := false }

/-- Identity A's five persisted messages (spec section 8 scenario). -/
def demoMessagesA : List StoredMessage :=
  [demoMessage "a1" 1, demoMessage "a2" 2, demoMessage "a3" 3,
   demoMessage "a4" 4, demoMessage "a5" 5]

/-- The steady state at identity A: the committed state holds A's messages,
no switch is in flight, and A's collection is persisted under A's key;
identity B has nothing persisted. -/
def demoInitialState : ProviderState :=
  { address := some "A", messages := demoMessagesA, switching := false,
    prevAddr := some "A",
    storage := [(getUserStorageKey MESSAGES_KEY "A", demoMessagesA)] }

/-- C4.  The claimed invariant fails in the code: starting from identity A
with five persisted messages, switching to B and back to A leaves A's
persisted store empty.  During the B-to-A commit the load effect (declared
first) clears the switching ref before the save effect (declared second)
runs, and the switch effect (declared third) sets the ref only after the
save effect has already persisted the still-empty committed `messages`
under A's key. -/
theorem c4_identity_switch_wipes_store :
    demoMessagesA.length = 5 ∧
    storageGet demoInitialState.storage
      (getUserStorageKey MESSAGES_KEY "A") = some demoMessagesA ∧
    storageGet (commitAddressChange
        (commitAddressChange demoInitialState (some "B"))
        (some "A")).storage
      (getUserStorageKey MESSAGES_KEY "A") = some [] ∧
    (commitAddressChange (commitAddressChange demoInitialState (some "B"))
      (some "A")).messages = [] := by
  refine ⟨by decide, by decide, by decide, by decide⟩

/-- C6.  The ledger-rejection path keeps the provisional entry but fails to
mark it failed: the catch block recomputes `Date.now()` (here `t1 = 5000`)
instead of reusing the `tempId` minted at creation (`t0 = 1000`), so
`updateMessageStatus` matches no entry and the provisional message is
retained with status still `sending`, not `failed`. -/
theorem c6_ledger_rejection_leaves_sending :
    handleSendMessageRejected [] "alice" "bob" "hello"
        { ciphertext := "ct", nonce := "nc" } "0xh" 1000 5000 =
      [mkProvisionalMessage "alice" "bob" "hello"
        { ciphertext := "ct", nonce := "nc" } "0xh" 1000] ∧
    (mkProvisionalMessage "alice" "bob" "hello"
      { ciphertext := "ct", nonce := "nc" } "0xh" 1000).status =
        MsgStatus.sending := by
  refine ⟨by decide, rfl⟩

/-- Concrete inbound PubNub event for C7: the wire event carries ciphertext
bytes and a hash, and the sender's public key is unavailable. -/
def c7msg : PubNubMessage :=
  { messageId := "mid1", conversationId := "alice_bob", sender := "bob",
    recipient := "alice", encryptedData := [1, 2, 3], nonce := [4, 5],
    messageHash := "0xhash", blockNumber := some 10, timestamp := 123 }

/-- C7 counterexample: with the sender key unavailable the stored entry
does carry the placeholder, but its envelope is `{ciphertext: "", nonce:
""}` although the wire event carried ciphertext bytes [1, 2, 3] — the
original ciphertext is not persisted, refuting the claim's
ciphertext-intact conjunct. -/
theorem c7_counterexample_ciphertext_dropped :
    c7msg.encryptedData = [1, 2, 3] ∧
    (pubnubHandleIncomingMessage [] .noKey c7msg).map
        (fun e => e.decryptedContent) =
      [some "[Sender public key not found]"] ∧
    (pubnubHandleIncomingMessage [] .noKey c7msg).map
        (fun e => e.encryptedData) =
      [{ ciphertext := "", nonce := "" }] := by
  refine ⟨rfl, by decide, by decide⟩

/-- C7 amended.  When the sender's public key cannot be obtained, the
inbound message is stored (appended, not discarded) with decryptedContent
"[Sender public key not found]" and its original hash and id intact; the
envelope, however, is stored as empty ciphertext and nonce strings, not as
the original ciphertext. -/
theorem c7_amended_placeholder_and_hash (s : List StoredMessage)
    (m : PubNubMessage)
    (h : s.any (fun x => x.id == m.messageId) = false) :
    pubnubHandleIncomingMessage s .noKey m =
      s ++ [pubnubReceivedMessage .noKey m] ∧
    (pubnubReceivedMessage .noKey m).decryptedContent =
      some "[Sender public key not found]" ∧
    (pubnubReceivedMessage .noKey m).hash = m.messageHash ∧
    (pubnubReceivedMessage .noKey m).id = m.messageId ∧
    (pubnubReceivedMessage .noKey m).encryptedData =
      { ciphertext := "", nonce := "" } :=
  ⟨pubnub_add s .noKey m h, rfl, rfl, rfl, rfl⟩

/-- C7 amended witness: the concrete event `c7msg` against the empty
store. -/
theorem c7_amended_placeholder_and_hash_witness :
    ([] : List StoredMessage).any (fun x => x.id == c7msg.messageId)
      = false ∧
    (pubnubHandleIncomingMessage [] .noKey c7msg =
        [] ++ [pubnubReceivedMessage .noKey c7msg] ∧
      (pubnubReceivedMessage .noKey c7msg).decryptedContent =
        some "[Sender public key not found]" ∧
      (pubnubReceivedMessage .noKey c7msg).hash = c7msg.messageHash ∧
      (pubnubReceivedMessage .noKey c7msg).id = c7msg.messageId ∧
      (pubnubReceivedMessage .noKey c7msg).encryptedData =
        { ciphertext := "", nonce := "" }) :=
  ⟨rfl, c7_amended_placeholder_and_hash [] c7msg rfl⟩

/-- A message of the alice-bob conversation for the C8 scenario. -/
def c8msg (id : String) (ts : Nat) : StoredMessage :=
  { id := id, conversationId := createConversationId "alice" "bob",
    sender := "bob", recipient := "alice",
    encryptedData := { ciphertext := "ct", nonce := "nn" }, hash := "0xh",
    timestamp := ts, status := .sent, blockNumber := none,
    decryptedContent := some "hello", direction := .received,
    verified := false, expired := false, verifiedAt := none,
    canVerify := true }

/-- Three messages inserted in arrival order with timestamps
300, 100, 200. -/
def c8store : List StoredMessage :=
  [c8msg "m1" 300, c8msg "m2" 100, c8msg "m3" 200]

/-- C8.  The per-conversation listing is ordered by timestamp ascending
regardless of insertion order: for every store and filter the produced
sequence is sorted by timestamp and is a permutation of the
filtered-and-mapped store; in particular three messages inserted with
timestamps [300, 100, 200] are listed as [100, 200, 300]. -/
theorem c8_listing_sorted_by_timestamp :
    (∀ (msgs : List StoredMessage) (walletAddress contactAddress : String)
        (filter : MessageFilter),
      List.Sorted byTimestamp
        (conversationMessages msgs walletAddress contactAddress filter) ∧
      List.Perm
        (conversationMessages msgs walletAddress contactAddress filter)
        ((msgs.filter (fun m =>
            decide (msgConversationId m =
              createConversationId walletAddress contactAddress) &&
            matchesFilter filter m)).map (toChatMessage walletAddress))) ∧
    ((conversationMessages c8store "alice" "bob" .all).map
        (fun x => x.timestamp) = [100, 200, 300]) ∧
    ((conversationMessages c8store "alice" "bob" .all).map
        (fun x => x.id) = ["m2", "m3", "m1"]) := by
  refine ⟨fun msgs w c f => ⟨?_, ?_⟩, by decide, by decide⟩
  · exact List.sorted_insertionSort byTimestamp _
  · exact List.perm_insertionSort byTimestamp _

/-- Concrete inbound PubNub event for C9, addressed to "bob". -/
def c9msg : PubNubMessage :=
  { messageId := "mid9", conversationId := "bob_carol", sender := "carol",
    recipient := "bob", encryptedData := [9], nonce := [9],
    messageHash := "0x9", blockNumber := none, timestamp := 5 }

/-- C9 counterexample: an inbound event whose recipient "bob" differs from
the active identity "alice" is stored anyway by the cited PubNub receive
path — the handler takes no active-identity input and performs no recipient
check, so the event is not discarded. -/
theorem c9_counterexample_pubnub_stores_mismatch :
    c9msg.recipient ≠ "alice" ∧
    pubnubHandleIncomingMessage [] (.ok "hi") c9msg =
      [pubnubReceivedMessage (.ok "hi") c9msg] :=
  ⟨by decide, pubnub_add [] (.ok "hi") c9msg rfl⟩

/-- C9 amended.  The recipient-versus-active-identity check exists on the
libp2p gossip receive path, which discards mismatched messages without
storing anything; the PubNub relay receive path stores any non-duplicate
inbound event without checking the recipient field (addressing there is by
channel subscription only). -/
theorem c9_amended_libp2p_discards (addr : String)
    (s : List StoredMessage) (k : DecryptOutcome) (p : P2PMessage)
    (h : p.recipient ≠ addr) :
    libp2pHandleIncomingMessage (some addr) s k p = s := by
  simp [libp2pHandleIncomingMessage, h]

/-- The C9 event as delivered over the gossip overlay. -/
def c9p : P2PMessage :=
  { messageId := "mid9", conversationId := "bob_carol", sender := "carol",
    recipient := "bob", encryptedData := { ciphertext := "ct", nonce := "nn" },
    messageHash := "0x9", blockNumber := none, timestamp := 5 }

/-- C9 amended witness: the libp2p path discards the concrete mismatched
event. -/
theorem c9_amended_libp2p_discards_witness :
    c9p.recipient ≠ "alice" ∧
    libp2pHandleIncomingMessage (some "alice") [] .noKey c9p = [] :=
  ⟨by decide, c9_amended_libp2p_discards "alice" [] .noKey c9p (by decide)⟩

/-- C10 counterexample: on the empty string the two `hashMessage` revisions
disagree — the js-sha256 revision prefixes the digest with `0x`, the
crypto.subtle revision does not, so the two outputs differ (already in
length, independently of the digest value). -/
theorem c10_counterexample_prefix_mismatch :
    JsSha256Rev.hashMessage "" ≠ SubtleRev.hashMessage "" := by
  intro h
  have hagree := hashMessage_agree ""
  rw [hagree] at h
  have hlen := congrArg String.length h
  rw [String.length_append] at hlen
  have h2 : ("0x" : String).length = 2 := rfl
  rw [h2] at hlen
  omega

/-- C10 amended.  The two `hashMessage` revisions are equivalent up to the
`0x` prefix: for every input string, the js-sha256 revision returns exactly
the crypto.subtle revision's digest with `0x` prepended (both digest the
same UTF-8 bytes with SHA-256 and emit lowercase hex). -/
theorem c10_amended_agree_up_to_prefix (data : String) :
    JsSha256Rev.hashMessage data = "0x" ++ SubtleRev.hashMessage data :=
  hashMessage_agree data
